import Mathlib

/-!
Shallow embedding of the metrics broadcast server (`src/server/index.js`)
of the glowing-computing-machine repository.

Numbers are modelled as rationals (`ℚ`), strings as `String`.  A JS value
that the source guards with `x || 0` is modelled as `Option ℚ` (`none` for
`null`/`undefined`) together with `jsOr`, which mirrors the semantics of
JavaScript's `||` on numbers: a falsy operand (`null`, `undefined`, `0`)
yields the default, any other number (negative ones included) is returned
unchanged.  `NaN` is outside the model.

The nine OS-introspection queries of the `systeminformation` collaborator
are modelled as a record of nine `Except` values (each query either
delivers its host facts or raises).  `Promise.all` joins them, failing as a
unit; the surrounding `try`/`catch` maps any failure to `null`, which the
embedding renders as `Option.none`.
-/

/-- JavaScript `v || d` on a possibly-absent number: falsy (`null`,
`undefined`, `0`) gives the default `d`; any other number is kept. -/
def jsOr (v : Option ℚ) (d : ℚ) : ℚ :=
  match v with
  | none => d
  | some q => if q = 0 then d else q

/-! ## Host facts returned by the nine `systeminformation` queries -/

/-- Result of `si.cpu()` (the fields the server reads, plus the
manufacturer field the library also reports). -/
structure CpuInfo where
  manufacturer : String
  brand : String
  speed : ℚ
  cores : ℚ
  physicalCores : ℚ
  deriving DecidableEq, Repr

/-- Result of `si.mem()`. -/
structure MemInfo where
  total : ℚ
  free : ℚ
  used : ℚ
  available : ℚ
  deriving DecidableEq, Repr

/-- One entry of the `si.fsSize()` result. -/
structure FsEntry where
  fs : String
  mount : String
  size : ℚ
  used : ℚ
  available : ℚ
  deriving DecidableEq, Repr

/-- One entry of the `si.networkStats()` result.  The per-second rates may
be `null`/`undefined` on the first sample, hence `Option ℚ`. -/
structure NetStatsEntry where
  iface : String
  rx_sec : Option ℚ
  tx_sec : Option ℚ
  deriving DecidableEq, Repr

/-- Result of `si.currentLoad()`.  `currentLoadUser` may be absent, hence
`Option ℚ` (the server guards it with `|| 0`). -/
structure LoadInfo where
  currentLoad : ℚ
  currentLoadUser : Option ℚ
  deriving DecidableEq, Repr

/-- Result of `si.osInfo()` (the fields the server reads). -/
structure OsInfoData where
  hostname : String
  platform : String
  arch : String
  kernel : String
  uptime : ℚ
  deriving DecidableEq, Repr

/-- Result of `si.system()`. -/
structure SystemInfo where
  manufacturer : String
  model : String
  version : String
  serial : String
  deriving DecidableEq, Repr

/-- One graphics controller of the `si.graphics()` result. -/
structure GfxController where
  vendor : String
  model : String
  vram : ℚ
  deriving DecidableEq, Repr

/-- Result of `si.graphics()`. -/
structure GraphicsInfo where
  controllers : List GfxController
  deriving DecidableEq, Repr

/-- One entry of the `si.processes()` process table (the fields the server
reads, plus the command field the library also reports). -/
structure ProcEntry where
  pid : ℚ
  name : String
  command : String
  cpu : ℚ
  mem : ℚ
  deriving DecidableEq, Repr

/-- Result of `si.processes()`. -/
structure ProcessesInfo where
  all : ℚ
  running : ℚ
  sleeping : ℚ
  list : List ProcEntry
  deriving DecidableEq, Repr

/-- The joined results of all nine queries (what `Promise.all` delivers on
success). -/
structure HostFacts where
  cpu : CpuInfo
  memory : MemInfo
  disk : List FsEntry
  network : List NetStatsEntry
  currentLoad : LoadInfo
  osInfo : OsInfoData
  system : SystemInfo
  graphics : GraphicsInfo
  processes : ProcessesInfo
  deriving DecidableEq, Repr

/-- The OS-introspection collaborator: each of the nine queries either
delivers its facts or raises (modelled as `Except String`). -/
structure Collaborator where
  cpu : Except String CpuInfo
  mem : Except String MemInfo
  fsSize : Except String (List FsEntry)
  networkStats : Except String (List NetStatsEntry)
  currentLoad : Except String LoadInfo
  osInfo : Except String OsInfoData
  system : Except String SystemInfo
  graphics : Except String GraphicsInfo
  processes : Except String ProcessesInfo
  deriving Repr

/-! ## The Metrics Snapshot (the object literal returned at lines 47–102) -/

/-- The `cpu` record of the snapshot. -/
structure CpuOut where
  brand : String
  cores : ℚ
  physicalCores : ℚ
  usage : ℚ
  speed : ℚ
  temperature : ℚ
  deriving DecidableEq, Repr

/-- The `memory` record of the snapshot. -/
structure MemOut where
  total : ℚ
  used : ℚ
  available : ℚ
  percentage : ℚ
  deriving DecidableEq, Repr

/-- One `disk` entry of the snapshot. -/
structure DiskOut where
  fs : String
  size : ℚ
  used : ℚ
  available : ℚ
  percentage : ℚ
  deriving DecidableEq, Repr

/-- One `network` entry of the snapshot. -/
structure NetOut where
  iface : String
  rx_sec : ℚ
  tx_sec : ℚ
  deriving DecidableEq, Repr

/-- The `device` record of the snapshot. -/
structure DeviceOut where
  hostname : String
  platform : String
  arch : String
  kernel : String
  uptime : ℚ
  manufacturer : String
  model : String
  version : String
  serial : String
  deriving DecidableEq, Repr

/-- One entry of the snapshot's top-process list. -/
structure ProcOut where
  pid : ℚ
  name : String
  cpu : ℚ
  mem : ℚ
  deriving DecidableEq, Repr

/-- The `processes` record of the snapshot. -/
structure ProcessesOut where
  all : ℚ
  running : ℚ
  sleeping : ℚ
  list : List ProcOut
  deriving DecidableEq, Repr

/-- One `graphics` entry of the snapshot. -/
structure GpuOut where
  vendor : String
  model : String
  vram : ℚ
  deriving DecidableEq, Repr

/-- The Metrics Snapshot, mirroring the object literal returned by
`getSystemMetrics`. -/
structure Metrics where
  timestamp : ℚ
  cpu : CpuOut
  memory : MemOut
  disk : List DiskOut
  network : List NetOut
  device : DeviceOut
  processes : ProcessesOut
  graphics : List GpuOut
  deriving DecidableEq, Repr

/-! ## The sampler (`getSystemMetrics`, lines 33–107) -/

/-- The `Promise.all` join over the nine queries: succeeds with the joined host
facts only if every query succeeds; any raised error rejects the whole
join (the rejection reason is only ever logged by the server, so the
error payload is abstracted to a fixed message). -/
def joinQueries (c : Collaborator) : Except String HostFacts :=
  match c.cpu, c.mem, c.fsSize, c.networkStats, c.currentLoad,
      c.osInfo, c.system, c.graphics, c.processes with
  | .ok cpu, .ok memory, .ok disk, .ok network, .ok currentLoad,
    .ok osInfo, .ok system, .ok graphics, .ok processes =>
      .ok ⟨cpu, memory, disk, network, currentLoad, osInfo, system,
           graphics, processes⟩
  | _, _, _, _, _, _, _, _, _ => .error "query failed"

/-- The object literal of lines 47–102, built from the joined facts and
the capture instant `now` (`Date.now()`). -/
def buildSnapshot (now : ℚ) (f : HostFacts) : Metrics :=
  { timestamp := now
    cpu :=
      { brand := f.cpu.brand
        cores := f.cpu.cores
        physicalCores := f.cpu.physicalCores
        usage := f.currentLoad.currentLoad
        speed := f.cpu.speed
        temperature := jsOr f.currentLoad.currentLoadUser 0 }
    memory :=
      { total := f.memory.total
        used := f.memory.used
        available := f.memory.available
        percentage := f.memory.used / f.memory.total * 100 }
    disk := f.disk.map fun d =>
      { fs := d.fs
        size := d.size
        used := d.used
        available := d.available
        percentage := d.used / d.size * 100 }
    network := f.network.map fun n =>
      { iface := n.iface
        rx_sec := jsOr n.rx_sec 0
        tx_sec := jsOr n.tx_sec 0 }
    device :=
      { hostname := f.osInfo.hostname
        platform := f.osInfo.platform
        arch := f.osInfo.arch
        kernel := f.osInfo.kernel
        uptime := f.osInfo.uptime
        manufacturer := f.system.manufacturer
        model := f.system.model
        version := f.system.version
        serial := f.system.serial }
    processes :=
      { all := f.processes.all
        running := f.processes.running
        sleeping := f.processes.sleeping
        list := (f.processes.list.take 10).map fun p =>
          { pid := p.pid, name := p.name, cpu := p.cpu, mem := p.mem } }
    graphics := f.graphics.controllers.map fun g =>
      { vendor := g.vendor, model := g.model, vram := g.vram } }

/-- Function `getSystemMetrics`: join the nine queries, construct the snapshot; the
`catch` block turns any failure into `null` (here `none`), so the function
is total and no exception escapes it. -/
def getSystemMetrics (now : ℚ) (c : Collaborator) : Option Metrics :=
  ((joinQueries c).map (buildSnapshot now)).toOption

/-! ## The broadcast loop (`setInterval` callback, lines 110–117) -/

/-- Observable actions of one timer tick: the nine OS-introspection
queries issued by the sampler (named after the `systeminformation` calls),
and the `io.emit('systemMetrics', …)` broadcast. -/
inductive Ev where
  | query (name : String)
  | emitMetrics (m : Metrics)
  deriving DecidableEq, Repr

/-- Whether an event is a `systemMetrics` broadcast. -/
def Ev.isEmit : Ev → Bool
  | .emitMetrics _ => true
  | .query _ => false

/-- The nine queries the sampler issues, in source order (lines 36–44). -/
def samplerQueryNames : List String :=
  ["cpu", "mem", "fsSize", "networkStats", "currentLoad",
   "osInfo", "system", "graphics", "processes"]

/-- One firing of the interval timer (lines 110–117): if
`connectedClients > 0`, call the sampler (issuing its nine queries) and,
when it returns a snapshot, emit one `systemMetrics` event; otherwise do
nothing. -/
def tickEvents (connectedClients : ℤ) (now : ℚ) (c : Collaborator) : List Ev :=
  if connectedClients > 0 then
    samplerQueryNames.map Ev.query ++
      (match getSystemMetrics now c with
       | some m => [Ev.emitMetrics m]
       | none => [])
  else []

/-- The snapshot a tick broadcasts, if any. -/
def tickBroadcast (connectedClients : ℤ) (now : ℚ) (c : Collaborator) :
    Option Metrics :=
  if connectedClients > 0 then getSystemMetrics now c else none

/-- Function `io.emit`: fan the payload out to every currently connected viewer
(each viewer receives the same snapshot). -/
def ioEmit (viewers : List ℕ) (m : Metrics) : List (ℕ × Metrics) :=
  viewers.map fun v => (v, m)

/-- A run of the broadcast loop: each tick supplies the current viewer
count, the clock reading and the collaborator's responses; the run's
output is the sequence of broadcast snapshots. -/
def runBroadcast (ticks : List (ℤ × ℚ × Collaborator)) : List Metrics :=
  ticks.filterMap fun t => tickBroadcast t.1 t.2.1 t.2.2

/-! ## The viewer counter and the health endpoint (lines 20–30, 120–122) -/

/-- Connection-level events delivered by the socket layer. -/
inductive ClientEv where
  | connect
  | disconnect
  deriving DecidableEq, Repr

/-- Lines 22–30: connect increments the counter, disconnect decrements
it.  The counter is a JS number, modelled as `ℤ`. -/
def stepClients (n : ℤ) : ClientEv → ℤ
  | .connect => n + 1
  | .disconnect => n - 1

/-- The counter after a sequence of connection events, starting from `n`. -/
def runClients (n : ℤ) (evs : List ClientEv) : ℤ :=
  evs.foldl stepClients n

/-- Response of `GET /health` (lines 120–122). -/
structure HealthResponse where
  status : String
  connectedClients : ℤ
  deriving DecidableEq, Repr

/-- The `/health` handler: always status `"OK"` with the current counter. -/
def healthHandler (connectedClients : ℤ) : HealthResponse :=
  { status := "OK", connectedClients := connectedClients }

/-- A trace of connection events is matched when no prefix has more
disconnects than connects (every disconnect closes a previously opened
connection); prefixes are enumerated as `evs.take k`. -/
def MatchedTrace (evs : List ClientEv) : Prop :=
  ∀ k, ((evs.take k).count ClientEv.disconnect : ℤ) ≤
    (evs.take k).count ClientEv.connect

/-! ## Shared inversion and helper lemmas -/

/-- Decidable test of whether a query raised. -/
def raised {α : Type} : Except String α → Bool
  | .error _ => true
  | .ok _ => false

theorem getSystemMetrics_some_iff (now : ℚ) (c : Collaborator) (m : Metrics) :
    getSystemMetrics now c = some m ↔
      ∃ f, joinQueries c = .ok f ∧ m = buildSnapshot now f := by
  unfold getSystemMetrics
  cases h : joinQueries c <;> simp [Except.map, Except.toOption, h, eq_comm]

theorem joinQueries_ok {c : Collaborator} {f : HostFacts}
    (h : joinQueries c = .ok f) :
    c.cpu = .ok f.cpu ∧ c.mem = .ok f.memory ∧ c.fsSize = .ok f.disk ∧
    c.networkStats = .ok f.network ∧ c.currentLoad = .ok f.currentLoad ∧
    c.osInfo = .ok f.osInfo ∧ c.system = .ok f.system ∧
    c.graphics = .ok f.graphics ∧ c.processes = .ok f.processes := by
  unfold joinQueries at h
  split at h
  · obtain ⟨rfl⟩ := h
    simp_all
  · cases h

theorem joinQueries_error_of_raised {c : Collaborator}
    (h : raised c.cpu = true ∨ raised c.mem = true ∨ raised c.fsSize = true ∨
      raised c.networkStats = true ∨ raised c.currentLoad = true ∨
      raised c.osInfo = true ∨ raised c.system = true ∨
      raised c.graphics = true ∨ raised c.processes = true) :
    joinQueries c = .error "query failed" := by
  unfold joinQueries
  split
  · rename_i h1 h2 h3 h4 h5 h6 h7 h8 h9
    rw [h1, h2, h3, h4, h5, h6, h7, h8, h9] at h
    simp [raised] at h
  · rfl

/-- A concrete set of host facts used as a witness input. -/
def sampleFacts : HostFacts where
  cpu := ⟨"Intel", "Core i7", 32/10, 8, 4⟩
  memory := ⟨1000, 700, 300, 600⟩
  disk := [⟨"/dev/sda1", "/", 500, 200, 300⟩, ⟨"/dev/sdb1", "/data", 400, 100, 300⟩]
  network := [⟨"eth0", some 10, some 20⟩, ⟨"lo", none, some 0⟩]
  currentLoad := ⟨25, some 15⟩
  osInfo := ⟨"host1", "linux", "x64", "6.1.0", 3600⟩
  system := ⟨"Acme", "Box", "1.0", "SN123"⟩
  graphics := ⟨[⟨"NVIDIA", "RTX", 8192⟩]⟩
  processes := ⟨120, 3, 100,
    [⟨1, "init", "/sbin/init", 1/10, 2/10⟩, ⟨2, "kthreadd", "", 0, 0⟩]⟩

/-- A collaborator whose nine queries all succeed with `sampleFacts`. -/
def sampleCollaborator : Collaborator where
  cpu := .ok sampleFacts.cpu
  mem := .ok sampleFacts.memory
  fsSize := .ok sampleFacts.disk
  networkStats := .ok sampleFacts.network
  currentLoad := .ok sampleFacts.currentLoad
  osInfo := .ok sampleFacts.osInfo
  system := .ok sampleFacts.system
  graphics := .ok sampleFacts.graphics
  processes := .ok sampleFacts.processes

/-! ## C1 -/

/-- C1: in every snapshot the sampler returns, the memory record's
percentage equals `used/total*100` computed from that snapshot's own
memory fields, and every disk entry's percentage equals that entry's
`used/size*100`; the percentages are derived from the stored byte counts
(stated under the precondition that the totals are positive). -/
theorem percentages_derived (now : ℚ) (c : Collaborator) (m : Metrics)
    (hm : getSystemMetrics now c = some m)
    (htot : 0 < m.memory.total) :
    m.memory.percentage = m.memory.used / m.memory.total * 100 ∧
    ∀ d ∈ m.disk, 0 < d.size → d.percentage = d.used / d.size * 100 := by
  obtain ⟨f, hf, rfl⟩ := (getSystemMetrics_some_iff now c m).mp hm
  refine ⟨rfl, ?_⟩
  intro d hd _
  simp only [buildSnapshot, List.mem_map] at hd
  obtain ⟨e, _, rfl⟩ := hd
  rfl

theorem percentages_derived_witness :
    (getSystemMetrics 0 sampleCollaborator = some (buildSnapshot 0 sampleFacts)) ∧
    (0 < (buildSnapshot 0 sampleFacts).memory.total) ∧
    ((buildSnapshot 0 sampleFacts).memory.percentage =
        (buildSnapshot 0 sampleFacts).memory.used /
          (buildSnapshot 0 sampleFacts).memory.total * 100 ∧
      ∀ d ∈ (buildSnapshot 0 sampleFacts).disk,
        0 < d.size → d.percentage = d.used / d.size * 100) :=
  ⟨rfl, by norm_num [buildSnapshot, sampleFacts],
    percentages_derived 0 sampleCollaborator _ rfl
      (by norm_num [buildSnapshot, sampleFacts])⟩

/-! ## C2 -/

/-- A collaborator whose `si.cpu()` query raises; the other eight succeed. -/
def failCollaborator : Collaborator where
  cpu := .error "boom"
  mem := .ok sampleFacts.memory
  fsSize := .ok sampleFacts.disk
  networkStats := .ok sampleFacts.network
  currentLoad := .ok sampleFacts.currentLoad
  osInfo := .ok sampleFacts.osInfo
  system := .ok sampleFacts.system
  graphics := .ok sampleFacts.graphics
  processes := .ok sampleFacts.processes

/-- C2: if any one of the nine OS-introspection queries raises, the
sampler returns `none` as a unit (no partial snapshot), and on such a tick
no `systemMetrics` broadcast event is emitted.  The error never escapes
the sampler: `getSystemMetrics` is a total function into `Option`, the
`catch` block having mapped every failure to `none`. -/
theorem sample_fails_as_unit (n : ℤ) (now : ℚ) (c : Collaborator)
    (h : raised c.cpu = true ∨ raised c.mem = true ∨ raised c.fsSize = true ∨
      raised c.networkStats = true ∨ raised c.currentLoad = true ∨
      raised c.osInfo = true ∨ raised c.system = true ∨
      raised c.graphics = true ∨ raised c.processes = true) :
    getSystemMetrics now c = none ∧
    (tickEvents n now c).filter Ev.isEmit = [] := by
  have hj := joinQueries_error_of_raised h
  have hnone : getSystemMetrics now c = none := by
    unfold getSystemMetrics
    rw [hj]
    rfl
  refine ⟨hnone, ?_⟩
  unfold tickEvents
  split
  · rw [hnone]
    rfl
  · rfl

theorem sample_fails_as_unit_witness :
    (raised failCollaborator.cpu = true ∨
      raised failCollaborator.mem = true ∨
      raised failCollaborator.fsSize = true ∨
      raised failCollaborator.networkStats = true ∨
      raised failCollaborator.currentLoad = true ∨
      raised failCollaborator.osInfo = true ∨
      raised failCollaborator.system = true ∨
      raised failCollaborator.graphics = true ∨
      raised failCollaborator.processes = true) ∧
    (getSystemMetrics 5 failCollaborator = none ∧
      (tickEvents 1 5 failCollaborator).filter Ev.isEmit = []) :=
  ⟨Or.inl rfl, sample_fails_as_unit 1 5 failCollaborator (Or.inl rfl)⟩

/-! ## C3 -/

/-- C3: on a tick at which the viewer count is 0, the sampler is never
invoked — no OS-introspection query event is issued, no broadcast occurs
and no snapshot is produced (idle-skip). -/
theorem idle_skip (now : ℚ) (c : Collaborator) :
    tickEvents 0 now c = [] ∧ tickBroadcast 0 now c = none := by
  constructor <;> simp [tickEvents, tickBroadcast]

/-! ## C4 -/

/-- C4: every snapshot's process list has length at most 10 and is exactly
the first `min(10, n)` entries of the collaborator's process table, in the
collaborator's order (projected to pid/name/cpu/mem), not re-sorted. -/
theorem top_processes (now : ℚ) (c : Collaborator) (m : Metrics)
    (ps : ProcessesInfo)
    (hp : c.processes = .ok ps) (hm : getSystemMetrics now c = some m) :
    m.processes.list.length ≤ 10 ∧
    m.processes.list =
      (ps.list.take 10).map fun p => ⟨p.pid, p.name, p.cpu, p.mem⟩ := by
  obtain ⟨f, hf, rfl⟩ := (getSystemMetrics_some_iff now c m).mp hm
  have h9 := joinQueries_ok hf
  have hps : ps = f.processes := by
    rw [h9.2.2.2.2.2.2.2.2] at hp
    exact (Except.ok.inj hp).symm
  subst hps
  refine ⟨?_, rfl⟩
  simp only [buildSnapshot, List.length_map, List.length_take]
  omega

theorem top_processes_witness :
    (sampleCollaborator.processes = .ok sampleFacts.processes) ∧
    (getSystemMetrics 0 sampleCollaborator = some (buildSnapshot 0 sampleFacts)) ∧
    ((buildSnapshot 0 sampleFacts).processes.list.length ≤ 10 ∧
      (buildSnapshot 0 sampleFacts).processes.list =
        (sampleFacts.processes.list.take 10).map
          fun p => ⟨p.pid, p.name, p.cpu, p.mem⟩) :=
  ⟨rfl, rfl, top_processes 0 sampleCollaborator _ _ rfl rfl⟩

/-! ## C5 -/

theorem runClients_eq (evs : List ClientEv) : ∀ n : ℤ,
    runClients n evs =
      n + (evs.count ClientEv.connect : ℤ) -
        (evs.count ClientEv.disconnect : ℤ) := by
  induction evs with
  | nil => intro n; simp [runClients]
  | cons e t ih =>
    intro n
    have hstep : runClients n (e :: t) = runClients (stepClients n e) t := rfl
    rw [hstep, ih]
    cases e <;> simp [stepClients, List.count_cons] <;> omega

/-- C5: the viewer counter starts at 0, a connect increments it, a
disconnect decrements it; `GET /health` always answers status `"OK"` with
the current counter (0 initially, 1 after a connect, 0 after that viewer
disconnects); and along any matched connect/disconnect trace every
reachable counter value is non-negative. -/
theorem viewer_counter_health (evs : List ClientEv)
    (hmatched : MatchedTrace evs) :
    runClients 0 [] = 0 ∧
    (∀ n : ℤ, stepClients n ClientEv.connect = n + 1) ∧
    (∀ n : ℤ, stepClients n ClientEv.disconnect = n - 1) ∧
    (∀ n : ℤ, healthHandler n = ⟨"OK", n⟩) ∧
    healthHandler (runClients 0 []) = ⟨"OK", 0⟩ ∧
    healthHandler (runClients 0 [ClientEv.connect]) = ⟨"OK", 1⟩ ∧
    healthHandler (runClients 0 [ClientEv.connect, ClientEv.disconnect]) =
      ⟨"OK", 0⟩ ∧
    ∀ k, 0 ≤ runClients 0 (evs.take k) := by
  refine ⟨rfl, fun n => rfl, fun n => rfl, fun n => rfl, rfl, rfl, rfl, ?_⟩
  intro k
  rw [runClients_eq]
  have := hmatched k
  omega

theorem viewer_counter_health_witness :
    MatchedTrace [ClientEv.connect, ClientEv.disconnect] ∧
    (runClients 0 [] = 0 ∧
      (∀ n : ℤ, stepClients n ClientEv.connect = n + 1) ∧
      (∀ n : ℤ, stepClients n ClientEv.disconnect = n - 1) ∧
      (∀ n : ℤ, healthHandler n = ⟨"OK", n⟩) ∧
      healthHandler (runClients 0 []) = ⟨"OK", 0⟩ ∧
      healthHandler (runClients 0 [ClientEv.connect]) = ⟨"OK", 1⟩ ∧
      healthHandler (runClients 0 [ClientEv.connect, ClientEv.disconnect]) =
        ⟨"OK", 0⟩ ∧
      ∀ k, 0 ≤ runClients 0
        (([ClientEv.connect, ClientEv.disconnect]).take k)) := by
  have hmatched : MatchedTrace [ClientEv.connect, ClientEv.disconnect] := by
    intro k
    match k with
    | 0 => simp
    | 1 => simp
    | (j+2) => simp [List.take]
  exact ⟨hmatched, viewer_counter_health _ hmatched⟩

/-! ## C6 -/

/-- C6: on a tick with at least one viewer on which the sampler returns a
snapshot, exactly one `systemMetrics` event carrying that snapshot is
emitted, and the fan-out delivers the same payload once to every
currently connected viewer; conversely, any emitted `systemMetrics` event
arises only from a tick with viewers on which sampling succeeded. -/
theorem broadcast_once_per_tick (n : ℤ) (now : ℚ) (c : Collaborator)
    (m : Metrics) (viewers : List ℕ)
    (hn : 0 < n) (hm : getSystemMetrics now c = some m) :
    (tickEvents n now c).filter Ev.isEmit = [Ev.emitMetrics m] ∧
    (ioEmit viewers m).length = viewers.length ∧
    (∀ v ∈ viewers, (v, m) ∈ ioEmit viewers m) ∧
    (∀ p ∈ ioEmit viewers m, p.2 = m) ∧
    (∀ (n' : ℤ) (now' : ℚ) (c' : Collaborator) (e : Ev),
      e ∈ tickEvents n' now' c' → e.isEmit = true →
        0 < n' ∧ ∃ m', getSystemMetrics now' c' = some m' ∧
          e = Ev.emitMetrics m') := by
  refine ⟨?_, ?_, ?_, ?_, ?_⟩
  · unfold tickEvents
    rw [if_pos hn, hm, List.filter_append]
    rfl
  · simp [ioEmit]
  · intro v hv
    exact List.mem_map.mpr ⟨v, hv, rfl⟩
  · intro p hp
    obtain ⟨v, _, rfl⟩ := List.mem_map.mp hp
    rfl
  · intro n' now' c' e he hemit
    unfold tickEvents at he
    split at he
    · rename_i hn'
      rcases List.mem_append.mp he with hq | hb
      · obtain ⟨name, _, rfl⟩ := List.mem_map.mp hq
        simp [Ev.isEmit] at hemit
      · cases hgm : getSystemMetrics now' c' with
        | none => rw [hgm] at hb; cases hb
        | some m' =>
          rw [hgm] at hb
          simp only [List.mem_singleton] at hb
          exact ⟨hn', m', rfl, hb⟩
    · cases he

theorem broadcast_once_per_tick_witness :
    (0 < (1 : ℤ)) ∧
    (getSystemMetrics 3 sampleCollaborator =
      some (buildSnapshot 3 sampleFacts)) ∧
    ((tickEvents 1 3 sampleCollaborator).filter Ev.isEmit =
        [Ev.emitMetrics (buildSnapshot 3 sampleFacts)] ∧
      (ioEmit [7, 8] (buildSnapshot 3 sampleFacts)).length = [7, 8].length ∧
      (∀ v ∈ [7, 8],
        (v, buildSnapshot 3 sampleFacts) ∈
          ioEmit [7, 8] (buildSnapshot 3 sampleFacts)) ∧
      (∀ p ∈ ioEmit [7, 8] (buildSnapshot 3 sampleFacts),
        p.2 = buildSnapshot 3 sampleFacts) ∧
      (∀ (n' : ℤ) (now' : ℚ) (c' : Collaborator) (e : Ev),
        e ∈ tickEvents n' now' c' → e.isEmit = true →
          0 < n' ∧ ∃ m', getSystemMetrics now' c' = some m' ∧
            e = Ev.emitMetrics m')) :=
  ⟨by norm_num, rfl,
    broadcast_once_per_tick 1 3 sampleCollaborator _ [7, 8] (by norm_num) rfl⟩

/-! ## C7 -/

/-- C7: the sampler is a deterministic function of the collaborator's
responses plus the clock — two calls for which the collaborator returns
identical host facts yield snapshots that are structurally equal in every
field except the capture timestamp, each timestamp being the respective
clock reading. -/
theorem sampler_deterministic (t1 t2 : ℚ) (c : Collaborator)
    (m1 m2 : Metrics)
    (h1 : getSystemMetrics t1 c = some m1)
    (h2 : getSystemMetrics t2 c = some m2) :
    m1.timestamp = t1 ∧ m2.timestamp = t2 ∧
    m1.cpu = m2.cpu ∧ m1.memory = m2.memory ∧ m1.disk = m2.disk ∧
    m1.network = m2.network ∧ m1.device = m2.device ∧
    m1.processes = m2.processes ∧ m1.graphics = m2.graphics := by
  obtain ⟨f1, hf1, rfl⟩ := (getSystemMetrics_some_iff t1 c m1).mp h1
  obtain ⟨f2, hf2, rfl⟩ := (getSystemMetrics_some_iff t2 c m2).mp h2
  rw [hf1] at hf2
  obtain rfl := Except.ok.inj hf2
  exact ⟨rfl, rfl, rfl, rfl, rfl, rfl, rfl, rfl, rfl⟩

theorem sampler_deterministic_witness :
    (getSystemMetrics 0 sampleCollaborator =
      some (buildSnapshot 0 sampleFacts)) ∧
    (getSystemMetrics 1 sampleCollaborator =
      some (buildSnapshot 1 sampleFacts)) ∧
    ((buildSnapshot 0 sampleFacts).timestamp = 0 ∧
      (buildSnapshot 1 sampleFacts).timestamp = 1 ∧
      (buildSnapshot 0 sampleFacts).cpu = (buildSnapshot 1 sampleFacts).cpu ∧
      (buildSnapshot 0 sampleFacts).memory =
        (buildSnapshot 1 sampleFacts).memory ∧
      (buildSnapshot 0 sampleFacts).disk =
        (buildSnapshot 1 sampleFacts).disk ∧
      (buildSnapshot 0 sampleFacts).network =
        (buildSnapshot 1 sampleFacts).network ∧
      (buildSnapshot 0 sampleFacts).device =
        (buildSnapshot 1 sampleFacts).device ∧
      (buildSnapshot 0 sampleFacts).processes =
        (buildSnapshot 1 sampleFacts).processes ∧
      (buildSnapshot 0 sampleFacts).graphics =
        (buildSnapshot 1 sampleFacts).graphics) :=
  ⟨rfl, rfl, sampler_deterministic 0 1 sampleCollaborator _ _ rfl rfl⟩

/-! ## C8 -/

/-- A collaborator whose network query reports a negative receive rate. -/
def negRateCollaborator : Collaborator where
  cpu := .ok sampleFacts.cpu
  mem := .ok sampleFacts.memory
  fsSize := .ok sampleFacts.disk
  networkStats := .ok [⟨"eth0", some (-1), some 0⟩]
  currentLoad := .ok sampleFacts.currentLoad
  osInfo := .ok sampleFacts.osInfo
  system := .ok sampleFacts.system
  graphics := .ok sampleFacts.graphics
  processes := .ok sampleFacts.processes

/-- C8 counterexample: when the collaborator reports `rx_sec = -1` the
snapshot's receive rate is `-1`, which is negative — `|| 0` only replaces
falsy values, it does not clamp negative numbers, so the claimed
non-negativity fails for arbitrary collaborator values. -/
theorem negative_rate_counterexample :
    (getSystemMetrics 0 negRateCollaborator).map
        (fun m => m.network.map NetOut.rx_sec) = some [-1] ∧
    ¬ (0 ≤ (-1 : ℚ)) := by
  refine ⟨rfl, by norm_num⟩

/-- Non-negativity of a defaulted rate whose reported value, if present,
is non-negative. -/
theorem jsOr_nonneg {v : Option ℚ} (h : ∀ q, v = some q → 0 ≤ q) :
    0 ≤ jsOr v 0 := by
  cases v with
  | none => simp [jsOr]
  | some q =>
    simp only [jsOr]
    split
    · exact le_refl 0
    · exact h q rfl

/-- C8 (amended): each snapshot network entry carries the collaborator's
reported rate with falsy values (`null`/`undefined`/`0`) replaced by 0 and
all other values kept unchanged; consequently the rates are ≥ 0 whenever
every rate the collaborator reports is absent or non-negative (negative
reported values are passed through, not clamped). -/
theorem rates_nonneg_of_nonneg_inputs (now : ℚ) (c : Collaborator)
    (m : Metrics) (ns : List NetStatsEntry)
    (hn : c.networkStats = .ok ns)
    (hm : getSystemMetrics now c = some m)
    (hnn : ∀ e ∈ ns, (∀ q, e.rx_sec = some q → 0 ≤ q) ∧
      (∀ q, e.tx_sec = some q → 0 ≤ q)) :
    m.network = ns.map (fun e => ⟨e.iface, jsOr e.rx_sec 0, jsOr e.tx_sec 0⟩) ∧
    ∀ o ∈ m.network, 0 ≤ o.rx_sec ∧ 0 ≤ o.tx_sec := by
  obtain ⟨f, hf, rfl⟩ := (getSystemMetrics_some_iff now c m).mp hm
  have h9 := joinQueries_ok hf
  have hns : ns = f.network := by
    rw [h9.2.2.2.1] at hn
    exact (Except.ok.inj hn).symm
  subst hns
  refine ⟨rfl, ?_⟩
  intro o ho
  simp only [buildSnapshot, List.mem_map] at ho
  obtain ⟨e, he, rfl⟩ := ho
  obtain ⟨hrx, htx⟩ := hnn e he
  exact ⟨jsOr_nonneg hrx, jsOr_nonneg htx⟩

theorem rates_nonneg_of_nonneg_inputs_witness :
    (sampleCollaborator.networkStats = .ok sampleFacts.network) ∧
    (getSystemMetrics 0 sampleCollaborator =
      some (buildSnapshot 0 sampleFacts)) ∧
    (∀ e ∈ sampleFacts.network,
      (∀ q, e.rx_sec = some q → 0 ≤ q) ∧ (∀ q, e.tx_sec = some q → 0 ≤ q)) ∧
    ((buildSnapshot 0 sampleFacts).network =
        sampleFacts.network.map
          (fun e => ⟨e.iface, jsOr e.rx_sec 0, jsOr e.tx_sec 0⟩) ∧
      ∀ o ∈ (buildSnapshot 0 sampleFacts).network,
        0 ≤ o.rx_sec ∧ 0 ≤ o.tx_sec) := by
  have hnn : ∀ e ∈ sampleFacts.network,
      (∀ q, e.rx_sec = some q → 0 ≤ q) ∧
      (∀ q, e.tx_sec = some q → 0 ≤ q) := by
    intro e he
    simp only [sampleFacts, List.mem_cons, List.not_mem_nil, or_false] at he
    rcases he with rfl | rfl <;>
      exact ⟨fun q hq => by cases hq <;> norm_num, fun q hq => by cases hq; norm_num⟩
  exact ⟨rfl, rfl, hnn,
    rates_nonneg_of_nonneg_inputs 0 sampleCollaborator _ _ rfl rfl hnn⟩

/-! ## C9 -/

/-- A broadcast snapshot's capture timestamp is the clock reading of its
tick. -/
theorem tickBroadcast_timestamp {n : ℤ} {now : ℚ} {c : Collaborator}
    {m : Metrics} (h : tickBroadcast n now c = some m) : m.timestamp = now := by
  unfold tickBroadcast at h
  split at h
  · obtain ⟨f, hf, rfl⟩ := (getSystemMetrics_some_iff now c m).mp h
    rfl
  · cases h

/-- Every timestamp a run broadcasts is one of the run's clock readings. -/
theorem runBroadcast_mem_timestamp {ticks : List (ℤ × ℚ × Collaborator)}
    {m : Metrics} (h : m ∈ runBroadcast ticks) :
    m.timestamp ∈ ticks.map (fun t => t.2.1) := by
  unfold runBroadcast at h
  obtain ⟨t, ht, hb⟩ := List.mem_filterMap.mp h
  exact tickBroadcast_timestamp hb ▸ List.mem_map_of_mem _ ht

/-- C9: across a run of the broadcast loop whose clock readings are
non-decreasing, the capture timestamps of the successively produced
snapshots are monotonically non-decreasing. -/
theorem timestamps_monotone (ticks : List (ℤ × ℚ × Collaborator))
    (hmono : (ticks.map fun t => t.2.1).Pairwise (· ≤ ·)) :
    ((runBroadcast ticks).map Metrics.timestamp).Pairwise (· ≤ ·) := by
  induction ticks with
  | nil => simp [runBroadcast]
  | cons t ts ih =>
    rw [List.map_cons, List.pairwise_cons] at hmono
    obtain ⟨hhead, htail⟩ := hmono
    have htailP := ih htail
    unfold runBroadcast
    rw [List.filterMap_cons]
    cases hb : tickBroadcast t.1 t.2.1 t.2.2 with
    | none => exact htailP
    | some m =>
      rw [List.map_cons, List.pairwise_cons]
      refine ⟨?_, htailP⟩
      intro x hx
      obtain ⟨m', hm', rfl⟩ := List.mem_map.mp hx
      have hts := runBroadcast_mem_timestamp
        (show m' ∈ runBroadcast ts from hm')
      rw [tickBroadcast_timestamp hb]
      exact hhead _ hts

/-- A concrete four-tick run: a broadcast tick, an idle tick, a failed
sample, and another broadcast tick, at clock readings 0, 1, 2, 3. -/
def sampleRun : List (ℤ × ℚ × Collaborator) :=
  [(1, 0, sampleCollaborator), (0, 1, sampleCollaborator),
   (1, 2, failCollaborator), (1, 3, sampleCollaborator)]

theorem timestamps_monotone_witness :
    ((sampleRun.map fun t => t.2.1).Pairwise (· ≤ ·)) ∧
    ((runBroadcast sampleRun).map Metrics.timestamp).Pairwise (· ≤ ·) := by
  have hmono : (sampleRun.map fun t => t.2.1).Pairwise (· ≤ ·) := by
    simp [sampleRun, List.pairwise_cons]
    norm_num
  exact ⟨hmono, timestamps_monotone sampleRun hmono⟩

/-! ## C10 -/

/-- C10: the `cpu.temperature` field of every broadcast snapshot is not a
temperature reading — it equals the collaborator's user-mode CPU load
`currentLoadUser` when that value is truthy, and 0 when it is absent or
zero; and no tick ever issues a temperature-sensor query
(`cpuTemperature` is not among the sampler's queries). -/
theorem temperature_is_user_load (now : ℚ) (c : Collaborator) (m : Metrics)
    (load : LoadInfo)
    (hl : c.currentLoad = .ok load)
    (hm : getSystemMetrics now c = some m) :
    m.cpu.temperature = jsOr load.currentLoadUser 0 ∧
    (load.currentLoadUser = none → m.cpu.temperature = 0) ∧
    (load.currentLoadUser = some 0 → m.cpu.temperature = 0) ∧
    (∀ q, load.currentLoadUser = some q → q ≠ 0 → m.cpu.temperature = q) ∧
    (∀ (n' : ℤ) (now' : ℚ) (c' : Collaborator),
      Ev.query "cpuTemperature" ∉ tickEvents n' now' c') := by
  obtain ⟨f, hf, rfl⟩ := (getSystemMetrics_some_iff now c m).mp hm
  have h9 := joinQueries_ok hf
  have hload : load = f.currentLoad := by
    rw [h9.2.2.2.2.1] at hl
    exact (Except.ok.inj hl).symm
  subst hload
  refine ⟨rfl, ?_, ?_, ?_, ?_⟩
  · intro h
    rw [show ((buildSnapshot now f).cpu.temperature) = jsOr f.currentLoad.currentLoadUser 0 from rfl, h]
    rfl
  · intro h
    show jsOr f.currentLoad.currentLoadUser 0 = 0
    rw [h]
    simp [jsOr]
  · intro q hq hq0
    show jsOr f.currentLoad.currentLoadUser 0 = q
    rw [hq]
    simp [jsOr, hq0]
  · intro n' now' c' hmem
    unfold tickEvents at hmem
    split at hmem
    · rcases List.mem_append.mp hmem with hq | hb
      · obtain ⟨name, hname, heq⟩ := List.mem_map.mp hq
        obtain rfl := Ev.query.inj heq
        simp [samplerQueryNames] at hname
      · cases hgm : getSystemMetrics now' c' <;> rw [hgm] at hb
        · cases hb
        · simp at hb
    · cases hmem

theorem temperature_is_user_load_witness :
    (sampleCollaborator.currentLoad = .ok sampleFacts.currentLoad) ∧
    (getSystemMetrics 0 sampleCollaborator =
      some (buildSnapshot 0 sampleFacts)) ∧
    ((buildSnapshot 0 sampleFacts).cpu.temperature =
        jsOr sampleFacts.currentLoad.currentLoadUser 0 ∧
      (sampleFacts.currentLoad.currentLoadUser = none →
        (buildSnapshot 0 sampleFacts).cpu.temperature = 0) ∧
      (sampleFacts.currentLoad.currentLoadUser = some 0 →
        (buildSnapshot 0 sampleFacts).cpu.temperature = 0) ∧
      (∀ q, sampleFacts.currentLoad.currentLoadUser = some q → q ≠ 0 →
        (buildSnapshot 0 sampleFacts).cpu.temperature = q) ∧
      (∀ (n' : ℤ) (now' : ℚ) (c' : Collaborator),
        Ev.query "cpuTemperature" ∉ tickEvents n' now' c')) :=
  ⟨rfl, rfl, temperature_is_user_load 0 sampleCollaborator _ _ rfl rfl⟩
